import Mathlib

/-!
Verification of the wgpu-raytracer scene assembler, BVH setup, GPU binding
manager and frame orchestrator, as a shallow embedding in Lean.

Conventions of the embedding:
* `f32` values are modelled as `ℚ` (the claims under study are structural and
  never depend on floating-point rounding), `i32` as `ℤ`, `u32`/`usize` as `ℕ`.
* `std::process::exit(1)` (fatal error paths) is modelled by `Except.error`.
* Rust panics (`unwrap` on `None`, `panic!`) are modelled by `Option`/`none`.
* External collaborators (file loaders, the `rtbvh` crate, the GPU device) are
  parameters of the embedded functions; the repository code under `src/` is
  embedded statement by statement.
-/

namespace Raytracer

/-- Small fixed-size vectors standing for the `[f32; 2]`, `[f32; 3]`, `[f32; 4]`
arrays of the Rust structs. -/
structure V2 where
  a : ℚ
  b : ℚ
deriving DecidableEq

structure V3 where
  x : ℚ
  y : ℚ
  z : ℚ
deriving DecidableEq

structure V4 where
  x : ℚ
  y : ℚ
  z : ℚ
  w : ℚ
deriving DecidableEq

/-- `Material` (scene/src/structs.rs 43-52): albedo, attenuation, roughness,
emission, index of refraction, padding. -/
structure Material where
  albedo : V4
  attenuation : V4
  roughness : ℚ
  emission : ℚ
  ior : ℚ
  padding : ℚ
deriving DecidableEq

/-- `Triangle` (scene/src/structs.rs 141-147): three vertex positions, a face
normal, an `i32` material id, three texture ids stored as `f32`, three UV
pairs. -/
structure Triangle where
  p0 : V3
  p1 : V3
  p2 : V3
  normal : V3
  material_id : ℤ
  tex0 : ℚ
  tex1 : ℚ
  tex2 : ℚ
  uv0 : V2
  uv1 : V2
  uv2 : V2
deriving DecidableEq

/-- `Triangle::empty` (scene/src/structs.rs 153-155): all-zero triangle used as
the placeholder when no model paths are configured. -/
def Triangle.empty : Triangle :=
  { p0 := ⟨0, 0, 0⟩, p1 := ⟨0, 0, 0⟩, p2 := ⟨0, 0, 0⟩
    normal := ⟨0, 0, 0⟩
    material_id := 0
    tex0 := 0, tex1 := 0, tex2 := 0
    uv0 := ⟨0, 0⟩, uv1 := ⟨0, 0⟩, uv2 := ⟨0, 0⟩ }

/-- `TriangleUniform` (scene/src/structs.rs 160-168): the GPU-layout record of a
triangle, all fields padded to `[f32; 4]`. -/
structure TriangleUniform where
  vertex1 : V4
  vertex2 : V4
  vertex3 : V4
  normal : V4
  texcords1 : V4
  texcords2 : V4
  material_texture_id : V4
deriving DecidableEq

/-- `TriangleUniform::new` (scene/src/structs.rs 171-181). -/
def TriangleUniform.new (t : Triangle) : TriangleUniform :=
  { vertex1 := ⟨t.p0.x, t.p0.y, t.p0.z, 0⟩
    vertex2 := ⟨t.p1.x, t.p1.y, t.p1.z, 0⟩
    vertex3 := ⟨t.p2.x, t.p2.y, t.p2.z, 0⟩
    normal := ⟨t.normal.x, t.normal.y, t.normal.z, 0⟩
    material_texture_id := ⟨(t.material_id : ℚ), t.tex0, t.tex1, t.tex2⟩
    texcords1 := ⟨t.uv0.a, t.uv0.b, t.uv1.a, t.uv1.b⟩
    texcords2 := ⟨t.uv2.a, t.uv2.b, 0, 0⟩ }

/-- `TriangleUniform::empty` (scene/src/structs.rs 182-192): the GPU-layout
placeholder record flagged by its distinctive vertex pattern. -/
def TriangleUniform.empty : TriangleUniform :=
  { vertex1 := ⟨1, 1, 1, 1⟩
    vertex2 := ⟨2, 2, 2, 2⟩
    vertex3 := ⟨3, 3, 3, 3⟩
    normal := ⟨0, 0, 0, 0⟩
    material_texture_id := ⟨0, 0, 0, 0⟩
    texcords1 := ⟨0, 0, 0, 0⟩
    texcords2 := ⟨0, 0, 0, 0⟩ }

/-- `Sphere` (scene/src/structs.rs 101-105): packed GPU record; the fourth
`center` slot is the shader-side jitter slot. -/
structure Sphere where
  center : V4
  radius : V4
  material_texture_id : V4
deriving DecidableEq

/-- `Sphere::new` (scene/src/structs.rs 108-115).  The source draws
`rng.gen_range(0.0..1.0)` from `rand::thread_rng()` for the last `center`
slot; the draw is made explicit here as the `rng` argument, so one run of the
source corresponds to one choice of `rng`. -/
def Sphere.new (center : V3) (radius : ℚ) (material_id : ℤ)
    (texture_ids : ℤ × ℤ × ℤ) (rng : ℚ) : Sphere :=
  { center := ⟨center.x, center.y, center.z, rng⟩
    radius := ⟨radius, 0, 0, 0⟩
    material_texture_id :=
      ⟨(material_id : ℚ), (texture_ids.1 : ℚ), (texture_ids.2.1 : ℚ), (texture_ids.2.2 : ℚ)⟩ }

/-- A decoded image (`image::DynamicImage`): either the blank RGB8 placeholder
the code constructs itself, or an abstract decoded asset identified by an
opaque id. -/
inductive Image where
  | rgb8 (width height : ℕ)
  | asset (id : ℕ)
deriving DecidableEq

/-- `ModelPaths` (scene/src/config.rs 16-20). -/
structure ModelPaths where
  gltf_path : Option String
  obj_path : Option String
  obj_material_id : Option ℤ
deriving DecidableEq

/-- The slice of `Config` (scene/src/config.rs 33-47) that scene assembly
reads. -/
structure Config where
  materials : Option (List Material)
  spheres : Option (List Sphere)
  model_paths : ModelPaths
deriving DecidableEq

/-- The external model loaders (scene/src/models.rs, collaborators of the
assembler): `load_obj path material_id` yields triangles and materials,
`load_gltf path material_count texture_count` yields triangles, materials and
texture images; either may fail. -/
structure LoaderEnv where
  load_obj : String → ℤ → Except String (List Triangle × List Material)
  load_gltf : String → ℤ → ℤ → Except String (List Triangle × List Material × List Image)

/-- `add_materials_from_config` (raytracer/src/helper.rs 147-154): appends the
config materials, if any, to the accumulator. -/
def add_materials_from_config (materials : List Material)
    (user_materials : Option (List Material)) : List Material :=
  match user_materials with
  | some user => materials ++ user
  | none => materials

/-- `load_obj_file` (raytracer/src/helper.rs 245-264): a `None` or empty-string
path is skipped; a loader failure terminates the process (`Except.error`);
otherwise the loaded triangles and materials are appended. -/
def load_obj_file (env : LoaderEnv) (triangles : List Triangle)
    (materials : List Material) (obj_path : Option String) (obj_material_id : ℤ) :
    Except Unit (List Triangle × List Material) :=
  match obj_path with
  | none => .ok (triangles, materials)
  | some path =>
      if path ≠ "" then
        match env.load_obj path obj_material_id with
        | .error _ => .error ()
        | .ok (objTris, objMats) => .ok (triangles ++ objTris, materials ++ objMats)
      else
        .ok (triangles, materials)

/-- `load_gltf_file` (raytracer/src/helper.rs 293-314): same contract as
`load_obj_file`, also appending loaded textures; the loader is called with the
current material and texture counts. -/
def load_gltf_file (env : LoaderEnv) (triangles : List Triangle)
    (materials : List Material) (textures : List Image) (gltf_path : Option String) :
    Except Unit (List Triangle × List Material × List Image) :=
  match gltf_path with
  | none => .ok (triangles, materials, textures)
  | some path =>
      if path ≠ "" then
        match env.load_gltf path (materials.length : ℤ) (textures.length : ℤ) with
        | .error _ => .error ()
        | .ok (gltfTris, gltfMats, gltfTexs) =>
            .ok (triangles ++ gltfTris, materials ++ gltfMats, textures ++ gltfTexs)
      else
        .ok (triangles, materials, textures)

/-- `setup_tris_objects` (raytracer/src/helper.rs 97-123): when both model
paths are `None` it pushes the one placeholder triangle; otherwise it runs the
two loaders and packs every loaded triangle into its GPU-layout record.
Returns (triangles, triangle uniforms, materials, textures) — the last two are
the `&mut Vec` accumulators of the source. -/
def setup_tris_objects (env : LoaderEnv) (userconfig : Config)
    (materials : List Material) (textures : List Image) :
    Except Unit (List Triangle × List TriangleUniform × List Material × List Image) :=
  let gltf_path := userconfig.model_paths.gltf_path
  let obj_path := userconfig.model_paths.obj_path
  let obj_material_id := (userconfig.model_paths.obj_material_id).getD 0
  let are_paths_empty := obj_path.isNone && gltf_path.isNone
  if are_paths_empty then
    .ok ([Triangle.empty], [TriangleUniform.empty], materials, textures)
  else
    match load_obj_file env [] materials obj_path obj_material_id with
    | .error e => .error e
    | .ok (tris1, mats1) =>
        match load_gltf_file env tris1 mats1 textures gltf_path with
        | .error e => .error e
        | .ok (tris2, mats2, texs2) =>
            .ok (tris2, tris2.map TriangleUniform.new, mats2, texs2)

/-- The image-list part of `setup_textures` (raytracer/src/helper.rs 343-377):
if no textures were assembled, two blank 1024x1024 placeholder images are
pushed and the texture-array layer count becomes 2; otherwise the list is kept
and the layer count is its length. -/
def setup_textures_images (textures : List Image) : List Image × ℕ :=
  if textures.length = 0 then
    ([Image.rgb8 1024 1024, Image.rgb8 1024 1024], 2)
  else
    (textures, textures.length)

/-- The sphere-array selection of `State::new` (raytracer/src/state.rs
151-166): the GPU sphere buffer is created from the config sphere list, or
from the empty vector when none are configured. -/
def spheresForUpload (userconfig : Config) : List Sphere :=
  match userconfig.spheres with
  | some userspheres => userspheres
  | none => []

/-- One `[[spheres]]` entry of the TOML config as `load_spheres_config`
(scene/src/config.rs 246-295) reads it: a `position` array, a `texture_id`
integer array, a `radius` float and a `material_id` integer.  An empty TOML
table is modelled as `none` at the call site. -/
structure SphereToml where
  position : List ℚ
  texture_id : List ℤ
  radius : ℚ
  material_id : ℤ
deriving DecidableEq

/-- The per-entry body of `load_spheres_config` (scene/src/config.rs 251-287):
an empty table yields `none`; otherwise the entry is repacked into the
`Sphere` GPU record — `center` is the position with a `0.0` appended, `radius`
is padded to four slots, and `material_texture_id` is
`[material_id, texture_id[0], texture_id[1], texture_id[2]]`.  A `position`
that does not yield a four-slot `center`, or a `texture_id` array shorter than
three (an out-of-bounds index in the source), fails the conversion. -/
def sphereFromToml (entry : Option SphereToml) : Except String (Option Sphere) :=
  match entry with
  | none => .ok none
  | some t =>
      match t.position, t.texture_id with
      | [px, py, pz], tid0 :: tid1 :: tid2 :: _ =>
          .ok (some
            { center := ⟨px, py, pz, 0⟩
              radius := ⟨t.radius, 0, 0, 0⟩
              material_texture_id := ⟨(t.material_id : ℚ), (tid0 : ℚ), (tid1 : ℚ), (tid2 : ℚ)⟩ })
      | _, _ => .error "Could not convert to Material"

/-- Collecting `Vec<Result<Option<Sphere>>>` into `Result<Option<Vec<Sphere>>>`
as the source `collect` does: the first `Err` aborts, any `Ok(None)` makes the
whole result `Ok(None)`. -/
def collectOptionSpheres : List (Option Sphere) → Option (List Sphere)
  | [] => some []
  | none :: _ => none
  | some s :: rest => (collectOptionSpheres rest).map (fun l => s :: l)

/-- `load_spheres_config` (scene/src/config.rs 246-295): a missing `[[spheres]]`
section yields `none`; otherwise every entry is converted and collected. -/
def load_spheres_config (value : Option (List (Option SphereToml))) :
    Except String (Option (List Sphere)) :=
  match value with
  | none => .ok none
  | some entries =>
      match entries.mapM sphereFromToml with
      | .error e => .error e
      | .ok opts => .ok (collectOptionSpheres opts)

/-- A raw flattened BVH node as `rtbvh` hands it back (`BvhNode`): min and max
bounds plus the two extra integer fields (scene/src/structs.rs 228-233 reads
exactly these). -/
structure RtBvhNode where
  bounds_min : V3
  bounds_max : V3
  extra1 : ℤ
  extra2 : ℤ
deriving DecidableEq

/-- `BvhUniform` (scene/src/structs.rs 228-233). -/
structure BvhUniform where
  bounds_min : V4
  bounds_max : V4
  bounds_extra1 : V4
  bounds_extra2 : V4
deriving DecidableEq

/-- `BvhUniform::new` (scene/src/structs.rs 236-243). -/
def BvhUniform.new (bvh : RtBvhNode) : BvhUniform :=
  { bounds_min := ⟨bvh.bounds_min.x, bvh.bounds_min.y, bvh.bounds_min.z, 0⟩
    bounds_max := ⟨bvh.bounds_max.x, bvh.bounds_max.y, bvh.bounds_max.z, 0⟩
    bounds_extra1 := ⟨(bvh.extra1 : ℚ), 0, 0, 0⟩
    bounds_extra2 := ⟨(bvh.extra2 : ℚ), 0, 0, 0⟩ }

/-- The state of the external `rtbvh` BVH after construction, as `setup_bvh`
consumes it: the raw node array (`raw.0`), the primitive-index array
(`raw.1`), and the boolean the external `Bvh::validate(triangles.len())`
returns for it. -/
structure RtBvh where
  nodes : List RtBvhNode
  primIndices : List ℕ
  validates : Bool
deriving DecidableEq

/-- `setup_bvh` (raytracer/src/helper.rs 405-460), parameterized by the result
of the external `builder.construct_binned_sah()` call.  A construction error
terminates the process (`Except.error`).  The `bvh.validate(triangles.len())`
call only selects which progress line is printed — both branches fall through
to `into_raw`, so the nodes and primitive indices are returned (and later
uploaded) whether or not validation succeeded. -/
def setup_bvh (construct : Except String RtBvh) :
    Except Unit (List BvhUniform × List ℚ) :=
  match construct with
  | .error _ => .error ()
  | .ok bvh =>
      let _validated := bvh.validates
      .ok (bvh.nodes.map BvhUniform.new, bvh.primIndices.map (fun i => (i : ℚ)))

/-- The fields of `State` (raytracer/src/state.rs 15-52) that `State::resize`
can observe or change, together with the creation-time dimensions of the two
output-sized textures (the ray-trace color buffer and the temporal-denoise
history texture), which only `State::new` writes. -/
structure RenderState where
  projection_aspect : ℚ
  size : ℕ × ℕ
  config_width : ℕ
  config_height : ℕ
  surface_configured : ℕ × ℕ
  color_buffer_size : ℕ × ℕ
  denoise_texture_size : ℕ × ℕ
deriving DecidableEq

/-- `State::resize` (raytracer/src/state.rs 629-637): only when both dimensions
are positive it calls `projection.resize` (aspect := width / height), updates
`size` and the surface configuration and reconfigures the surface; otherwise
it does nothing. -/
def State.resize (s : RenderState) (width height : ℕ) : RenderState :=
  if 0 < width ∧ 0 < height then
    { s with
      projection_aspect := (width : ℚ) / (height : ℚ)
      size := (width, height)
      config_width := width
      config_height := height
      surface_configured := (width, height) }
  else
    s

/-- `wgpu::TextureViewDimension`. -/
inductive TextureViewDimension where
  | d1
  | d2
  | d2Array
  | cube
  | cubeArray
  | d3
deriving DecidableEq

/-- `wgpu::ShaderStages` as the descriptors use it. -/
inductive ShaderStages where
  | compute
  | fragment
  | vertex
deriving DecidableEq

/-- `BindingResourceTemplate` (raytracer/src/wgpu_utils/buffer.rs 46-52): the
five binding-resource kinds, each carrying its `wgpu::BindingResource` payload
(an opaque handle here). -/
inductive BindingResourceTemplate where
  | bufferStorage (res : ℕ)
  | bufferUniform (res : ℕ)
  | storageTexture (res : ℕ)
  | textureView (res : ℕ)
  | sampler (res : ℕ)
deriving DecidableEq

/-- `get_binding_resource` (raytracer/src/wgpu_utils/buffer.rs 57-65). -/
def get_binding_resource : BindingResourceTemplate → ℕ
  | .bufferStorage res => res
  | .bufferUniform res => res
  | .storageTexture res => res
  | .textureView res => res
  | .sampler res => res

/-- `BufferType` (raytracer/src/wgpu_utils/buffer.rs 72-75): a binding kind
plus an optional texture view dimension. -/
structure BufferType where
  ty : BindingResourceTemplate
  view_dimension : Option TextureViewDimension
deriving DecidableEq

/-- `BufferType::new` (raytracer/src/wgpu_utils/buffer.rs 91-93). -/
def BufferType.new (ty : BindingResourceTemplate) : BufferType :=
  { ty := ty, view_dimension := none }

/-- `BufferType::with_view_dimension` (raytracer/src/wgpu_utils/buffer.rs
95-105): only the `TextureView` and `StorageTexture` kinds accept a view
dimension; for every other kind the source calls `panic!`, modelled as
`none`. -/
def BufferType.with_view_dimension (ty : BindingResourceTemplate)
    (view_dimension : TextureViewDimension) : Option BufferType :=
  match ty with
  | .textureView _ => some { ty := ty, view_dimension := some view_dimension }
  | .storageTexture _ => some { ty := ty, view_dimension := some view_dimension }
  | _ => none

/-- `wgpu::BindingType` as `generate_bind_group_layout` constructs it: the
storage-texture arm fixes access to read-write and the `Rgba8Unorm` format,
the texture arm fixes a filterable float sample type and no multisampling;
both carry the unwrapped view dimension. -/
inductive BindingType where
  | bufferStorageReadOnly
  | bufferUniform
  | storageTextureRW (view_dimension : TextureViewDimension)
  | textureFloat (view_dimension : TextureViewDimension)
  | samplerFiltering
deriving DecidableEq

/-- One `wgpu::BindGroupLayoutEntry` as the source fills it in. -/
structure BindGroupLayoutEntry where
  binding : ℕ
  visibility : ShaderStages
  ty : BindingType
deriving DecidableEq

/-- One `wgpu::BindGroupEntry` as the source fills it in. -/
structure BindGroupEntry where
  binding : ℕ
  resource : ℕ
deriving DecidableEq

/-- `BindGroupDescriptor` (raytracer/src/wgpu_utils/buffer.rs 112-117): the
single declaration — label, visibility and the ordered binding list — from
which both the bind group and its layout are derived. -/
structure BindGroupDescriptor where
  label : Option String
  vis : ShaderStages
  bindings : List BufferType
deriving DecidableEq

/-- The body of the `generate_bind_group_layout` map (raytracer/src/
wgpu_utils/buffer.rs 173-233) for one binding at index `idx`: buffer and
sampler kinds always produce their entry; the two texture kinds call
`view_dimension.unwrap()`, which panics (`none`) when the dimension is
missing. -/
def layoutEntryFor (vis : ShaderStages) (idx : ℕ) (b : BufferType) :
    Option BindGroupLayoutEntry :=
  match b.ty with
  | .bufferStorage _ => some ⟨idx, vis, .bufferStorageReadOnly⟩
  | .bufferUniform _ => some ⟨idx, vis, .bufferUniform⟩
  | .storageTexture _ => b.view_dimension.map (fun d => ⟨idx, vis, .storageTextureRW d⟩)
  | .textureView _ => b.view_dimension.map (fun d => ⟨idx, vis, .textureFloat d⟩)
  | .sampler _ => some ⟨idx, vis, .samplerFiltering⟩

/-- The entry list of `generate_bind_group_layout` (raytracer/src/
wgpu_utils/buffer.rs 163-235): the running `binding_index` assigns indices in
declaration order starting at `idx`. -/
def layoutEntriesFrom (vis : ShaderStages) : ℕ → List BufferType →
    Option (List BindGroupLayoutEntry)
  | _, [] => some []
  | idx, b :: rest =>
      match layoutEntryFor vis idx b with
      | none => none
      | some e =>
          match layoutEntriesFrom vis (idx + 1) rest with
          | none => none
          | some es => some (e :: es)

/-- `generate_bind_group_layout` (raytracer/src/wgpu_utils/buffer.rs
163-235). -/
def generate_bind_group_layout (d : BindGroupDescriptor) :
    Option (List BindGroupLayoutEntry) :=
  layoutEntriesFrom d.vis 0 d.bindings

/-- The entry list of `generate_bind_group` (raytracer/src/wgpu_utils/
buffer.rs 127-158): indices in declaration order, each resource taken from the
declared template by `get_binding_resource`. -/
def bindGroupEntriesFrom : ℕ → List BufferType → List BindGroupEntry
  | _, [] => []
  | idx, b :: rest => ⟨idx, get_binding_resource b.ty⟩ :: bindGroupEntriesFrom (idx + 1) rest

/-- `generate_bind_group` (raytracer/src/wgpu_utils/buffer.rs 127-158): builds
the entry list, generates the layout from the same descriptor, and panics
(`none`) when the layout could not be produced. -/
def generate_bind_group (d : BindGroupDescriptor) :
    Option (List BindGroupEntry × List BindGroupLayoutEntry) :=
  match generate_bind_group_layout d with
  | none => none
  | some layout => some (bindGroupEntriesFrom 0 d.bindings, layout)

/-- The correspondence C8 asserts between a declared binding and the layout
entry derived for it: same kind, and for the two texture kinds the declared
view dimension. -/
def matchesDeclaredKind (b : BufferType) (ty : BindingType) : Prop :=
  match b.ty with
  | .bufferStorage _ => ty = .bufferStorageReadOnly
  | .bufferUniform _ => ty = .bufferUniform
  | .storageTexture _ => ∃ dim, b.view_dimension = some dim ∧ ty = .storageTextureRW dim
  | .textureView _ => ∃ dim, b.view_dimension = some dim ∧ ty = .textureFloat dim
  | .sampler _ => ty = .samplerFiltering

/-- Whether a binding kind is one of the two texture kinds. -/
def isTextureKind : BindingResourceTemplate → Bool
  | .storageTexture _ => true
  | .textureView _ => true
  | _ => false

/-- One operation enqueued on the single in-order `wgpu::Queue` by
`State::render` (raytracer/src/state.rs 746-914).  `submit denoise` records a
command-buffer submission and whether that buffer contains a denoise dispatch;
poses are abstract (`ℕ`). -/
inductive QueueOp where
  | writePassIdx (v : ℕ)
  | writeDenoiseCam (pose : ℕ)
  | submit (containsDenoise : Bool)
  | present
deriving DecidableEq

/-- The queue trace of one `State::render` call with live camera pose `pose`,
in source order (raytracer/src/state.rs 746-914): the pass-index write and the
first submission (ray trace + denoise pass 1), the pass-index write and the
second submission (denoise pass 2), then the single denoise-reference camera
write, the presentation submission and `present`. -/
def renderOps (pose : ℕ) : List QueueOp :=
  [ .writePassIdx 0
  , .submit true
  , .writePassIdx 1
  , .submit true
  , .writeDenoiseCam pose
  , .submit false
  , .present ]

/-- The prefix of `renderOps` up to (excluding) the denoise-reference camera
write. -/
def denoiseSubmitPhase : List QueueOp :=
  [ .writePassIdx 0, .submit true, .writePassIdx 1, .submit true ]

/-- The suffix of `renderOps` after the denoise-reference camera write. -/
def presentPhase : List QueueOp :=
  [ .submit false, .present ]

/-- Recognizers for the trace statements. -/
def QueueOp.isCamWrite : QueueOp → Bool
  | .writeDenoiseCam _ => true
  | _ => false

def QueueOp.isDenoiseSubmit : QueueOp → Bool
  | .submit b => b
  | _ => false

/-- The queue-visible buffer state: because the queue executes submissions in
FIFO order after all previously enqueued `write_buffer` operations, a denoise
dispatch reads the value the reference buffer held when its command buffer was
submitted.  `seen` records that value for every denoise-containing
submission, in order. -/
structure QueueState where
  denoiseCamBuf : ℕ
  passIdxBuf : ℕ
  seen : List ℕ
deriving DecidableEq

def stepOp (s : QueueState) : QueueOp → QueueState
  | .writePassIdx v => { s with passIdxBuf := v }
  | .writeDenoiseCam pose => { s with denoiseCamBuf := pose }
  | .submit true => { s with seen := s.seen ++ [s.denoiseCamBuf] }
  | .submit false => s
  | .present => s

def runOps (s : QueueState) (ops : List QueueOp) : QueueState :=
  ops.foldl stepOp s

/-- Running a sequence of frames: `init` is the pose the reference buffer was
created with in `State::new` (raytracer/src/state.rs 411-417), `poses` the
live camera pose of each successive frame. -/
def runFrames (init : ℕ) (poses : List ℕ) : QueueState :=
  runOps ⟨init, 0, []⟩ (poses.map renderOps).flatten

/-!
Modelled from the spec: the binned surface-area-heuristic BVH builder invoked
by `setup_bvh` (`rtbvh::Builder::construct_binned_sah` and `Bvh::validate`) is
an external module whose source is not under `src/`; only its caller is.  The
builder below follows the spec contract (section 4.2): per-triangle AABBs and
centroids, recursive partition of the active primitive range choosing among a
fixed number of binned candidate split positions per axis the one minimizing
the surface-area-weighted cost, splitting stopped at the
minimum-primitives-per-leaf threshold of 1, children sharing one permutation
array, and a flattened node array whose leaves reference contiguous ranges of
that array.
-/

/-- An axis-aligned bounding box with rational coordinates. -/
structure QAabb where
  minx : ℚ
  miny : ℚ
  minz : ℚ
  maxx : ℚ
  maxy : ℚ
  maxz : ℚ
deriving DecidableEq

/-- The AABB of a triangle: componentwise min and max of its vertices. -/
def Triangle.qaabb (t : Triangle) : QAabb :=
  { minx := min t.p0.x (min t.p1.x t.p2.x)
    miny := min t.p0.y (min t.p1.y t.p2.y)
    minz := min t.p0.z (min t.p1.z t.p2.z)
    maxx := max t.p0.x (max t.p1.x t.p2.x)
    maxy := max t.p0.y (max t.p1.y t.p2.y)
    maxz := max t.p0.z (max t.p1.z t.p2.z) }

/-- The centroid of a triangle. -/
def Triangle.centroid (t : Triangle) : V3 :=
  ⟨(t.p0.x + t.p1.x + t.p2.x) / 3, (t.p0.y + t.p1.y + t.p2.y) / 3,
    (t.p0.z + t.p1.z + t.p2.z) / 3⟩

/-- Union of two AABBs. -/
def QAabb.union (b1 b2 : QAabb) : QAabb :=
  { minx := min b1.minx b2.minx, miny := min b1.miny b2.miny, minz := min b1.minz b2.minz
    maxx := max b1.maxx b2.maxx, maxy := max b1.maxy b2.maxy, maxz := max b1.maxz b2.maxz }

/-- Surface area of an AABB (the SAH weight). -/
def QAabb.surfaceArea (b : QAabb) : ℚ :=
  let dx := b.maxx - b.minx
  let dy := b.maxy - b.miny
  let dz := b.maxz - b.minz
  2 * (dx * dy + dy * dz + dz * dx)

/-- An empty AABB (identity under growth, as in the rtbvh `Aabb::new`). -/
def QAabb.empty : QAabb :=
  { minx := 1000000, miny := 1000000, minz := 1000000
    maxx := -1000000, maxy := -1000000, maxz := -1000000 }

/-- The triangle at primitive index `i`. -/
def triAt (tris : List Triangle) (i : ℕ) : Triangle :=
  tris.getD i Triangle.empty

/-- The bound of a set of primitive indices. -/
def boundsOf (tris : List Triangle) (idxs : List ℕ) : QAabb :=
  idxs.foldl (fun acc i => acc.union (triAt tris i).qaabb) QAabb.empty

/-- The centroid coordinate of primitive `i` along `axis` (0, 1 or 2). -/
def centroidAxis (tris : List Triangle) (axis : ℕ) (i : ℕ) : ℚ :=
  let c := (triAt tris i).centroid
  if axis = 0 then c.x else if axis = 1 then c.y else c.z

/-- Number of bins per axis (a fixed candidate count, as the spec requires). -/
def binCount : ℕ := 8

/-- The binned candidate split thresholds along one axis: `binCount - 1`
evenly spaced positions between the smallest and largest centroid
coordinate. -/
def candidateThresholds (tris : List Triangle) (idxs : List ℕ) (axis : ℕ) : List ℚ :=
  let vals := idxs.map (centroidAxis tris axis)
  let lo := vals.foldl min 0
  let hi := vals.foldl max 0
  (List.range (binCount - 1)).map (fun k => lo + ((k + 1 : ℚ) * (hi - lo)) / (binCount : ℚ))

/-- All candidate partitions of the active range: for each axis and each
binned threshold, the primitives whose centroid lies strictly below the
threshold against the rest. -/
def sahCandidates (tris : List Triangle) (idxs : List ℕ) : List (List ℕ × List ℕ) :=
  (List.range 3).flatMap (fun axis =>
    (candidateThresholds tris idxs axis).map (fun thr =>
      idxs.partition (fun i => centroidAxis tris axis i < thr)))

/-- The SAH cost of a candidate partition: surface area of each child bound
weighted by its primitive count. -/
def splitCost (tris : List Triangle) (p : List ℕ × List ℕ) : ℚ :=
  (boundsOf tris p.1).surfaceArea * p.1.length + (boundsOf tris p.2).surfaceArea * p.2.length

/-- The chosen split of the active range: the candidate of minimal SAH cost
among those with two non-empty children, or the median split of the shared
permutation array when every binned candidate is degenerate. -/
def sahSplit (tris : List Triangle) (idxs : List ℕ) : List ℕ × List ℕ :=
  let cands := (sahCandidates tris idxs).filter
    (fun p => !p.1.isEmpty && !p.2.isEmpty)
  match cands with
  | [] => (idxs.take (idxs.length / 2), idxs.drop (idxs.length / 2))
  | c :: cs =>
      cs.foldl (fun best p => if splitCost tris p < splitCost tris best then p else best) c

/-- The builder tree: leaves own a contiguous chunk of the shared permutation
array. -/
inductive BvhTree where
  | leaf (prims : List ℕ)
  | node (left right : BvhTree)
deriving DecidableEq

/-- The minimum-primitives-per-leaf threshold `setup_bvh` configures
(`NonZeroUsize::new(1)`, raytracer/src/helper.rs 416). -/
def primsPerLeaf : ℕ := 1

/-- Recursive binned-SAH construction (fuel-indexed; `buildTree` supplies
fuel `idxs.length`, which suffices because every accepted split strictly
shrinks both children).  A range at or below the leaf threshold, or one whose
split fails to shrink both sides, becomes a leaf. -/
def buildTreeFuel (split : List ℕ → List ℕ × List ℕ) : ℕ → List ℕ → BvhTree
  | 0, idxs => .leaf idxs
  | fuel + 1, idxs =>
      if idxs.length ≤ primsPerLeaf then .leaf idxs
      else
        let p := split idxs
        if p.1.length < idxs.length ∧ p.2.length < idxs.length then
          .node (buildTreeFuel split fuel p.1) (buildTreeFuel split fuel p.2)
        else .leaf idxs

def buildTree (split : List ℕ → List ℕ × List ℕ) (idxs : List ℕ) : BvhTree :=
  buildTreeFuel split idxs.length idxs

/-- The shared permutation array: in-order concatenation of the leaf
chunks. -/
def BvhTree.leafPrims : BvhTree → List ℕ
  | .leaf prims => prims
  | .node l r => l.leafPrims ++ r.leafPrims

/-- A flattened node: a leaf holds the first position and length of its range
in the permutation array; an internal node holds the array indices of its two
children. -/
structure FlatNode where
  isLeaf : Bool
  first : ℕ
  count : ℕ
deriving DecidableEq

/-- Depth-first flattening: the node at array index `nodeIdx` is followed by
its left subtree and then its right subtree; leaf ranges are assigned
left-to-right starting at `primStart`.  Returns the node list and the next
free primitive position. -/
def flattenAux : BvhTree → ℕ → ℕ → List FlatNode × ℕ
  | .leaf prims, _nodeIdx, primStart =>
      ([⟨true, primStart, prims.length⟩], primStart + prims.length)
  | .node l r, nodeIdx, primStart =>
      let lres := flattenAux l (nodeIdx + 1) primStart
      let rres := flattenAux r (nodeIdx + 1 + lres.1.length) lres.2
      (⟨false, nodeIdx + 1, nodeIdx + 1 + lres.1.length⟩ :: (lres.1 ++ rres.1), rres.2)

/-- The leaf ranges of a flattened node array, in order. -/
def leafRanges (nodes : List FlatNode) : List (ℕ × ℕ) :=
  (nodes.filter (fun n => n.isLeaf)).map (fun n => (n.first, n.count))

/-- The positions covered by a list of ranges, in order. -/
def rangesCover (ranges : List (ℕ × ℕ)) : List ℕ :=
  ranges.flatMap (fun p => List.range' p.1 p.2)

/-- The full modelled builder: build over the identity permutation
`[0, tris.length)`, flatten, and return (flattened node array, primitive-index
array) like `Bvh::into_raw`. -/
def construct_binned_sah_model (tris : List Triangle) : List FlatNode × List ℕ :=
  let tree := buildTree (sahSplit tris) (List.range tris.length)
  ((flattenAux tree 0 0).1, tree.leafPrims)

/-! Concrete inputs used to evaluate the embedded functions. -/

/-- A loader environment whose loaders always fail (never invoked in the
scenarios below that use it). -/
def noLoaders : LoaderEnv :=
  { load_obj := fun _ _ => .error "missing"
    load_gltf := fun _ _ _ => .error "missing" }

/-- A loader environment whose OBJ loader returns exactly one given triangle
and no materials, and whose glTF loader is never reached. -/
def objEnvReturning (t : Triangle) : LoaderEnv :=
  { load_obj := fun _ _ => .ok ([t], [])
    load_gltf := fun _ _ _ => .error "missing" }

/-- The empty-scene configuration: no materials, no spheres, no model paths. -/
def cfgNoAssets : Config :=
  { materials := none, spheres := none
    model_paths := { gltf_path := none, obj_path := none, obj_material_id := none } }

/-- A configuration whose OBJ path is present but the empty string (and no
glTF path): the loaders treat it as absent, but the placeholder check in
`setup_tris_objects` only tests for `None`. -/
def cfgEmptyObjPath : Config :=
  { materials := none, spheres := none
    model_paths := { gltf_path := none, obj_path := some "", obj_material_id := none } }

/-- A configuration declaring only an OBJ model with `obj_material_id = 7`. -/
def cfgObjOnly : Config :=
  { materials := none, spheres := none
    model_paths := { gltf_path := none, obj_path := some "model.obj", obj_material_id := some 7 } }

/-- A sphere config entry carrying `material_id = 5` (while the scene declares
no materials at all). -/
def sphereToml5 : SphereToml :=
  { position := [0, 0, 0], texture_id := [0, 1, 2], radius := 1, material_id := 5 }

/-- A constructed BVH whose `validate(triangles.len())` call returned `false`
(its two-entry primitive-index array repeats index 0, so no triangle count is
covered exactly once). -/
def invalidBvh : RtBvh :=
  { nodes := [{ bounds_min := ⟨0, 0, 0⟩, bounds_max := ⟨1, 1, 1⟩, extra1 := 0, extra2 := 2 }]
    primIndices := [0, 0]
    validates := false }

/-- A `State` as created for an 800x600 surface: every output-sized resource
was created at 800x600. -/
def state800x600 : RenderState :=
  { projection_aspect := 800 / 600
    size := (800, 600)
    config_width := 800
    config_height := 600
    surface_configured := (800, 600)
    color_buffer_size := (800, 600)
    denoise_texture_size := (800, 600) }

/-- A unit triangle translated by `q` along the x axis. -/
def demoTri (q : ℚ) : Triangle :=
  { Triangle.empty with p0 := ⟨q, 0, 0⟩, p1 := ⟨q + 1, 0, 0⟩, p2 := ⟨q, 1, 0⟩ }

/-- A two-triangle scene for evaluating the modelled builder. -/
def demoTris : List Triangle :=
  [demoTri 0, demoTri 10]

/-- A three-binding descriptor shaped like the texture bind group of
`State::new`: a sampler, a 2D-array texture view, a storage buffer. -/
def demoDescriptor : BindGroupDescriptor :=
  { label := some "textures_and_materials"
    vis := .compute
    bindings :=
      [ BufferType.new (.sampler 0)
      , { ty := .textureView 1, view_dimension := some .d2Array }
      , BufferType.new (.bufferStorage 2) ] }

/-- The bind group entries `generate_bind_group` produces for
`demoDescriptor`. -/
def demoEntries : List BindGroupEntry :=
  [⟨0, 0⟩, ⟨1, 1⟩, ⟨2, 2⟩]

/-- The layout entries `generate_bind_group_layout` produces for
`demoDescriptor`. -/
def demoLayout : List BindGroupLayoutEntry :=
  [ ⟨0, .compute, .samplerFiltering⟩
  , ⟨1, .compute, .textureFloat .d2Array⟩
  , ⟨2, .compute, .bufferStorageReadOnly⟩ ]

/-- A descriptor containing a texture view built by `BufferType::new`, i.e.
without a view dimension. -/
def badDescriptor : BindGroupDescriptor :=
  { label := some "broken"
    vis := .compute
    bindings := [BufferType.new (.textureView 4)] }

/-! ### Claim C1 — BVH validation failure and `setup_bvh` -/

/-- C1 counterexample: a BVH that fails validation is not a fatal error —
`setup_bvh` returns normally (and the structure is subsequently uploaded), so
not every returned (node array, primitive-index array) pair comes from a BVH
that passed validation. -/
theorem setup_bvh_invalid_not_fatal :
    invalidBvh.validates = false ∧ (setup_bvh (.ok invalidBvh)).isOk = true :=
  ⟨rfl, rfl⟩

/-- C1 amended: only a construction failure of the external builder is fatal
in `setup_bvh`; the validation result is merely logged, and on successful
construction the raw nodes and primitive indices are returned unchanged
whether or not validation succeeded. -/
theorem setup_bvh_fatal_only_on_construction_failure (bvh : RtBvh) (err : String) :
    setup_bvh (.ok bvh) =
      .ok (bvh.nodes.map BvhUniform.new, bvh.primIndices.map (fun i => (i : ℚ))) ∧
    setup_bvh (.error err) = .error () :=
  ⟨rfl, rfl⟩

/-- C1 amended, witness: the concrete invalid BVH and a concrete construction
error. -/
theorem setup_bvh_fatal_only_on_construction_failure_witness :
    setup_bvh (.ok invalidBvh) =
      .ok (invalidBvh.nodes.map BvhUniform.new,
        invalidBvh.primIndices.map (fun i => (i : ℚ))) ∧
    setup_bvh (.error "bvh build failed") = .error () :=
  setup_bvh_fatal_only_on_construction_failure invalidBvh "bvh build failed"

/-! ### Claim C3 — material IDs versus the material count -/

/-- C3 counterexample: a config that declares no materials and one sphere with
`material_id = 5` assembles without error; the assembled sphere array carries
material ID 5, which is not `< materials.length = 0`. -/
theorem sphere_material_id_unchecked :
    add_materials_from_config [] none = [] ∧
    load_spheres_config (some [some sphereToml5]) =
      .ok (some [{ center := ⟨0, 0, 0, 0⟩, radius := ⟨1, 0, 0, 0⟩
                   material_texture_id := ⟨5, 0, 1, 2⟩ }]) ∧
    ¬ ((5 : ℚ) < ((add_materials_from_config [] none).length : ℚ)) :=
  ⟨rfl, rfl, by norm_num [add_materials_from_config]⟩

/-- C3 amended: assembly performs no range validation of material IDs — a
sphere entry's `material_id` and a loaded triangle's material id are carried
into the assembled (GPU-bound) arrays unchanged, whatever their value, and an
out-of-range ID is not an error. -/
theorem material_ids_carried_unchecked (px py pz radius : ℚ) (mid t0 t1 t2 : ℤ)
    (rest : List ℤ) (t : Triangle) :
    load_spheres_config
        (some [some { position := [px, py, pz], texture_id := t0 :: t1 :: t2 :: rest
                      radius := radius, material_id := mid }]) =
      .ok (some [{ center := ⟨px, py, pz, 0⟩, radius := ⟨radius, 0, 0, 0⟩
                   material_texture_id := ⟨(mid : ℚ), (t0 : ℚ), (t1 : ℚ), (t2 : ℚ)⟩ }]) ∧
    setup_tris_objects (objEnvReturning t) cfgObjOnly [] [] =
      .ok ([t], [TriangleUniform.new t], [], []) :=
  ⟨rfl, rfl⟩

/-- C3 amended, witness: the out-of-range sphere id 5 and a concrete loaded
triangle. -/
theorem material_ids_carried_unchecked_witness :
    load_spheres_config
        (some [some { position := [0, 0, 0], texture_id := 0 :: 1 :: 2 :: ([] : List ℤ)
                      radius := 1, material_id := 5 }]) =
      .ok (some [{ center := ⟨0, 0, 0, 0⟩, radius := ⟨1, 0, 0, 0⟩
                   material_texture_id :=
                     ⟨((5 : ℤ) : ℚ), ((0 : ℤ) : ℚ), ((1 : ℤ) : ℚ), ((2 : ℤ) : ℚ)⟩ }]) ∧
    setup_tris_objects (objEnvReturning (demoTri 0)) cfgObjOnly [] [] =
      .ok ([demoTri 0], [TriangleUniform.new (demoTri 0)], [], []) :=
  material_ids_carried_unchecked 0 0 0 1 5 0 1 2 [] (demoTri 0)

/-! ### Claim C4 — placeholder arrays for an empty scene -/

/-- C4 counterexample: on an empty-asset startup the texture array receives
two placeholder entries, not exactly one, and the sphere buffer is created
from a zero-length array with no placeholder at all. -/
theorem empty_scene_placeholder_counts :
    (setup_textures_images []).1.length ≠ 1 ∧
    (spheresForUpload cfgNoAssets).length = 0 :=
  ⟨by decide, rfl⟩

/-- C4 amended: on an empty-asset startup the triangle buffer is created from
exactly the one placeholder triangle, the texture array from exactly two blank
1024x1024 placeholder images (layer count 2), and the sphere buffer from the
empty config sphere list (zero-length, no placeholder). -/
theorem empty_scene_buffer_sources (env : LoaderEnv) (mats : List Material) :
    setup_tris_objects env cfgNoAssets mats [] =
      .ok ([Triangle.empty], [TriangleUniform.empty], mats, []) ∧
    setup_textures_images [] = ([Image.rgb8 1024 1024, Image.rgb8 1024 1024], 2) ∧
    spheresForUpload cfgNoAssets = [] :=
  ⟨rfl, rfl, rfl⟩

/-- C4 amended, witness: the empty-asset startup with no loaders and no
initial materials. -/
theorem empty_scene_buffer_sources_witness :
    setup_tris_objects noLoaders cfgNoAssets [] [] =
      .ok ([Triangle.empty], [TriangleUniform.empty], [], []) ∧
    setup_textures_images [] = ([Image.rgb8 1024 1024, Image.rgb8 1024 1024], 2) ∧
    spheresForUpload cfgNoAssets = [] :=
  empty_scene_buffer_sources noLoaders []

/-! ### Claim C5 — the placeholder triangle for an empty merged scene -/

/-- C5: with an empty-string OBJ path (which the loaders skip exactly like an
absent one) and no glTF path, the merged triangle array is empty, yet
`setup_tris_objects` returns zero-length triangle and uniform arrays instead
of the one-element placeholder: the placeholder condition tests `is_none`
only, contradicting the source comment that the buffer cannot be empty. -/
theorem setup_tris_objects_empty_string_path_no_placeholder :
    setup_tris_objects noLoaders cfgEmptyObjPath [] [] = .ok ([], [], [], []) :=
  rfl

/-! ### Claim C6 — `State::resize` -/

/-- C6 counterexample: resizing an 800x600 state to 1024x768 leaves the
ray-trace color buffer and the denoise history texture at their creation-time
800x600 dimensions — `State::resize` does not recreate the output-sized
buffers the claim says it resizes. -/
theorem resize_does_not_recreate_buffers :
    (State.resize state800x600 1024 768).color_buffer_size = (800, 600) ∧
    (State.resize state800x600 1024 768).denoise_texture_size = (800, 600) ∧
    ((800, 600) : ℕ × ℕ) ≠ (1024, 768) :=
  ⟨rfl, rfl, by decide⟩

/-- C6 amended: a zero-area resize leaves the whole state unchanged; a
positive resize updates the projection aspect ratio to width/height, the
stored size, the surface configuration dimensions (reconfiguring the surface),
and nothing else — in particular the color buffer and denoise history texture
keep their creation-time dimensions. -/
theorem resize_updates_surface_only (s : RenderState) (width height : ℕ) :
    (width = 0 ∨ height = 0 → State.resize s width height = s) ∧
    (0 < width → 0 < height →
      State.resize s width height =
        { s with
          projection_aspect := (width : ℚ) / (height : ℚ)
          size := (width, height)
          config_width := width
          config_height := height
          surface_configured := (width, height) }) := by
  constructor
  · intro h0
    rw [State.resize, if_neg]
    omega
  · intro hw hh
    rw [State.resize, if_pos ⟨hw, hh⟩]

/-- C6 amended, witness: the zero-area branch at 0x600 and the positive branch
at 1024x768 on the 800x600 state. -/
theorem resize_updates_surface_only_witness :
    State.resize state800x600 0 600 = state800x600 ∧
    State.resize state800x600 1024 768 =
      { state800x600 with
        projection_aspect := (1024 : ℚ) / (768 : ℚ)
        size := (1024, 768)
        config_width := 1024
        config_height := 768
        surface_configured := (1024, 768) } :=
  ⟨(resize_updates_surface_only state800x600 0 600).1 (Or.inl rfl),
   (resize_updates_surface_only state800x600 1024 768).2 (by norm_num) (by norm_num)⟩

/-! ### Claim C9 — determinism of assembly -/

/-- C9 counterexample: `Sphere::new` stores a fresh random draw in the fourth
`center` slot of the packed GPU record, so two runs on identical inputs (whose
RNG draws differ) yield different sphere records — assembly output is not a
function of the config and file set alone. -/
theorem sphere_new_two_runs_differ :
    Sphere.new ⟨0, 0, 0⟩ 1 0 (0, 0, 0) 0 ≠ Sphere.new ⟨0, 0, 0⟩ 1 0 (0, 0, 0) (1 / 2) := by
  intro h
  have hw := congrArg (fun s => s.center.w) h
  simp only [Sphere.new] at hw
  norm_num at hw

/-- C9 amended: every field of the packed sphere record other than the jitter
slot `center.w` is determined by the arguments alone — two runs agree on
center position, radius and material/texture ids, and differ at most in the
jitter slot, which holds exactly the run's random draw. -/
theorem sphere_new_deterministic_except_jitter (c : V3) (radius : ℚ) (mid : ℤ)
    (tids : ℤ × ℤ × ℤ) (rng1 rng2 : ℚ) :
    (Sphere.new c radius mid tids rng1).radius = (Sphere.new c radius mid tids rng2).radius ∧
    (Sphere.new c radius mid tids rng1).material_texture_id =
      (Sphere.new c radius mid tids rng2).material_texture_id ∧
    (Sphere.new c radius mid tids rng1).center.x = (Sphere.new c radius mid tids rng2).center.x ∧
    (Sphere.new c radius mid tids rng1).center.y = (Sphere.new c radius mid tids rng2).center.y ∧
    (Sphere.new c radius mid tids rng1).center.z = (Sphere.new c radius mid tids rng2).center.z ∧
    (Sphere.new c radius mid tids rng1).center.w = rng1 :=
  ⟨rfl, rfl, rfl, rfl, rfl, rfl⟩

/-! ### Claim C7 — the denoise-reference camera write -/

theorem runOps_append (s : QueueState) (l1 l2 : List QueueOp) :
    runOps s (l1 ++ l2) = runOps (runOps s l1) l2 :=
  List.foldl_append stepOp s l1 l2

/-- Running one frame trace from any queue state: the two denoise-containing
submissions observe the reference value held on entry, and only afterwards is
the reference buffer overwritten with this frame's pose. -/
theorem runOps_renderOps (s : QueueState) (pose : ℕ) :
    runOps s (renderOps pose) =
      { denoiseCamBuf := pose, passIdxBuf := 1
        seen := s.seen ++ [s.denoiseCamBuf, s.denoiseCamBuf] } := by
  simp [runOps, renderOps, stepOp]

theorem runFrames_seen_aux (s : QueueState) (poses : List ℕ) :
    (runOps s (poses.map renderOps).flatten).seen =
      s.seen ++ ((s.denoiseCamBuf :: poses).take poses.length).flatMap (fun q => [q, q]) := by
  induction poses generalizing s with
  | nil => simp [runOps]
  | cons p ps ih =>
      simp only [List.map_cons, List.flatten_cons, runOps_append, runOps_renderOps,
        List.length_cons, List.take_succ_cons, List.flatMap_cons, ih]
      simp [List.append_assoc]

/-- C7: every `State::render` trace contains exactly one write of the
denoise-reference camera buffer, the trace decomposes as the two
denoise-containing submissions followed by that write and the presentation
phase (which contains no denoise submission), and across any frame sequence
each frame's two denoise submissions observe the pose written by the previous
frame (the `State::new` value for the first frame), never the current one. -/
theorem render_reference_camera_written_once_after_denoise
    (pose init : ℕ) (poses : List ℕ) :
    (renderOps pose).countP QueueOp.isCamWrite = 1 ∧
    renderOps pose = denoiseSubmitPhase ++ QueueOp.writeDenoiseCam pose :: presentPhase ∧
    denoiseSubmitPhase.countP QueueOp.isDenoiseSubmit = 2 ∧
    presentPhase.countP QueueOp.isDenoiseSubmit = 0 ∧
    (runFrames init poses).seen =
      ((init :: poses).take poses.length).flatMap (fun q => [q, q]) := by
  refine ⟨?_, rfl, rfl, rfl, ?_⟩
  · rfl
  · simpa using runFrames_seen_aux ⟨init, 0, []⟩ poses

/-! ### Claims C8 and C10 — the bind-group declaration manager -/

theorem bindGroupEntriesFrom_length (bs : List BufferType) :
    ∀ start, (bindGroupEntriesFrom start bs).length = bs.length := by
  induction bs with
  | nil => intro start; rfl
  | cons b rest ih => intro start; simp [bindGroupEntriesFrom, ih]

theorem bindGroupEntriesFrom_getD (bs : List BufferType) :
    ∀ start i, i < bs.length →
      (bindGroupEntriesFrom start bs).getD i ⟨0, 0⟩ =
        ⟨start + i, get_binding_resource ((bs.getD i (BufferType.new (.sampler 0))).ty)⟩ := by
  induction bs with
  | nil => intro start i hi; simp at hi
  | cons b rest ih =>
      intro start i hi
      cases i with
      | zero => simp [bindGroupEntriesFrom]
      | succ j =>
          have hj : j < rest.length := by simpa using hi
          simp only [bindGroupEntriesFrom, List.getD_cons_succ]
          rw [ih (start + 1) j hj]
          simp [BindGroupEntry.mk.injEq]
          omega

theorem layoutEntryFor_none_iff (vis : ShaderStages) (idx : ℕ) (b : BufferType) :
    layoutEntryFor vis idx b = none ↔
      isTextureKind b.ty = true ∧ b.view_dimension = none := by
  cases hb : b.ty <;> cases hd : b.view_dimension <;>
    simp [layoutEntryFor, isTextureKind, hb, hd]

theorem layoutEntryFor_some_spec (vis : ShaderStages) (idx : ℕ) (b : BufferType)
    (e : BindGroupLayoutEntry) (h : layoutEntryFor vis idx b = some e) :
    e.binding = idx ∧ e.visibility = vis ∧ matchesDeclaredKind b e.ty := by
  cases hb : b.ty <;>
    simp only [layoutEntryFor, hb, Option.map_eq_some', Option.some.injEq] at h
  case bufferStorage res =>
    subst h; exact ⟨rfl, rfl, by simp [matchesDeclaredKind, hb]⟩
  case bufferUniform res =>
    subst h; exact ⟨rfl, rfl, by simp [matchesDeclaredKind, hb]⟩
  case storageTexture res =>
    obtain ⟨dim, hdim, he⟩ := h
    subst he
    exact ⟨rfl, rfl, by simp only [matchesDeclaredKind, hb]; exact ⟨dim, hdim, rfl⟩⟩
  case textureView res =>
    obtain ⟨dim, hdim, he⟩ := h
    subst he
    exact ⟨rfl, rfl, by simp only [matchesDeclaredKind, hb]; exact ⟨dim, hdim, rfl⟩⟩
  case sampler res =>
    subst h; exact ⟨rfl, rfl, by simp [matchesDeclaredKind, hb]⟩

theorem layoutEntriesFrom_some_spec (vis : ShaderStages) (bs : List BufferType) :
    ∀ start l, layoutEntriesFrom vis start bs = some l →
      l.length = bs.length ∧
      ∀ i, i < bs.length →
        (l.getD i ⟨0, .compute, .bufferUniform⟩).binding = start + i ∧
        (l.getD i ⟨0, .compute, .bufferUniform⟩).visibility = vis ∧
        matchesDeclaredKind (bs.getD i (BufferType.new (.sampler 0)))
          ((l.getD i ⟨0, .compute, .bufferUniform⟩).ty) := by
  induction bs with
  | nil =>
      intro start l h
      simp only [layoutEntriesFrom] at h
      cases h
      exact ⟨rfl, fun i hi => by simp at hi⟩
  | cons b rest ih =>
      intro start l h
      simp only [layoutEntriesFrom] at h
      cases he : layoutEntryFor vis start b with
      | none => rw [he] at h; cases h
      | some e =>
          rw [he] at h
          cases hr : layoutEntriesFrom vis (start + 1) rest with
          | none => rw [hr] at h; cases h
          | some es =>
              rw [hr] at h
              cases h
              obtain ⟨hlen, hspec⟩ := ih (start + 1) es hr
              obtain ⟨heb, hev, hem⟩ := layoutEntryFor_some_spec vis start b e he
              refine ⟨by simp [hlen], ?_⟩
              intro i hi
              cases i with
              | zero => simpa [heb, hev] using hem
              | succ j =>
                  have hj : j < rest.length := by simpa using hi
                  obtain ⟨h1, h2, h3⟩ := hspec j hj
                  refine ⟨?_, ?_, ?_⟩
                  · simp only [List.getD_cons_succ]; rw [h1]; omega
                  · simpa [List.getD_cons_succ] using h2
                  · simpa [List.getD_cons_succ] using h3

theorem layoutEntriesFrom_none_iff (vis : ShaderStages) (bs : List BufferType) :
    ∀ start, layoutEntriesFrom vis start bs = none ↔
      ∃ b ∈ bs, isTextureKind b.ty = true ∧ b.view_dimension = none := by
  induction bs with
  | nil => intro start; simp [layoutEntriesFrom]
  | cons b rest ih =>
      intro start
      constructor
      · intro h
        simp only [layoutEntriesFrom] at h
        cases he : layoutEntryFor vis start b with
        | none =>
            exact ⟨b, List.mem_cons_self b rest, (layoutEntryFor_none_iff vis start b).mp he⟩
        | some e =>
            rw [he] at h
            cases hr : layoutEntriesFrom vis (start + 1) rest with
            | none =>
                obtain ⟨b2, hb2, hp⟩ := (ih (start + 1)).mp hr
                exact ⟨b2, List.mem_cons_of_mem b hb2, hp⟩
            | some es => rw [hr] at h; cases h
      · rintro ⟨b2, hb2, hp⟩
        rcases List.mem_cons.mp hb2 with hb2 | hb2
        · subst hb2
          simp only [layoutEntriesFrom, (layoutEntryFor_none_iff vis start b2).mpr hp]
        · have hr : layoutEntriesFrom vis (start + 1) rest = none :=
            (ih (start + 1)).mpr ⟨b2, hb2, hp⟩
          simp only [layoutEntriesFrom, hr]
          cases layoutEntryFor vis start b <;> rfl

/-- C8: the bind group and its layout are both derived from the single
`BindGroupDescriptor` declaration and cannot drift apart: both enumerate
binding indices 0..n-1 in declaration order, each bind-group entry carries the
declared resource, and each layout entry carries the declared visibility and a
binding type matching the declared resource kind — including, for the two
texture kinds, the declared view dimension. -/
theorem bind_group_and_layout_derived_consistently
    (d : BindGroupDescriptor) (entries : List BindGroupEntry)
    (layout : List BindGroupLayoutEntry)
    (hgen : generate_bind_group d = some (entries, layout)) :
    entries.length = d.bindings.length ∧
    layout.length = d.bindings.length ∧
    ∀ i, i < d.bindings.length →
      (entries.getD i ⟨0, 0⟩).binding = i ∧
      (entries.getD i ⟨0, 0⟩).resource =
        get_binding_resource ((d.bindings.getD i (BufferType.new (.sampler 0))).ty) ∧
      (layout.getD i ⟨0, .compute, .bufferUniform⟩).binding = i ∧
      (layout.getD i ⟨0, .compute, .bufferUniform⟩).visibility = d.vis ∧
      matchesDeclaredKind (d.bindings.getD i (BufferType.new (.sampler 0)))
        ((layout.getD i ⟨0, .compute, .bufferUniform⟩).ty) := by
  have hl : generate_bind_group_layout d = some layout ∧
      entries = bindGroupEntriesFrom 0 d.bindings := by
    cases hg : generate_bind_group_layout d with
    | none => simp [generate_bind_group, hg] at hgen
    | some l0 =>
        simp only [generate_bind_group, hg, Option.some.injEq, Prod.mk.injEq] at hgen
        exact ⟨by rw [hgen.2], hgen.1.symm⟩
  obtain ⟨hlay, hent⟩ := hl
  obtain ⟨hlen, hspec⟩ := layoutEntriesFrom_some_spec d.vis d.bindings 0 layout hlay
  subst hent
  refine ⟨bindGroupEntriesFrom_length d.bindings 0, hlen, ?_⟩
  intro i hi
  obtain ⟨h1, h2, h3⟩ := hspec i hi
  rw [bindGroupEntriesFrom_getD d.bindings 0 i hi]
  exact ⟨by simp, by simp, by simpa using h1, h2, h3⟩

/-- C8 witness: the three-binding texture descriptor, at binding index 1 (the
2D-array texture view). -/
theorem bind_group_and_layout_derived_consistently_witness :
    (demoEntries.getD 1 ⟨0, 0⟩).binding = 1 ∧
    (demoEntries.getD 1 ⟨0, 0⟩).resource =
      get_binding_resource ((demoDescriptor.bindings.getD 1 (BufferType.new (.sampler 0))).ty) ∧
    (demoLayout.getD 1 ⟨0, .compute, .bufferUniform⟩).binding = 1 ∧
    (demoLayout.getD 1 ⟨0, .compute, .bufferUniform⟩).visibility = demoDescriptor.vis ∧
    matchesDeclaredKind (demoDescriptor.bindings.getD 1 (BufferType.new (.sampler 0)))
      ((demoLayout.getD 1 ⟨0, .compute, .bufferUniform⟩).ty) :=
  (bind_group_and_layout_derived_consistently demoDescriptor demoEntries demoLayout
    rfl).2.2 1 (by decide)

/-- C10: `with_view_dimension` succeeds exactly on the two texture kinds
(panicking on every other kind), `BufferType::new` never attaches a view
dimension, and layout generation fails (panics on `unwrap`) precisely when
some texture-kind binding carries no view dimension — so every successfully
generated layout has an explicit dimensionality for each texture binding, and
no non-texture binding can ever carry one. -/
theorem view_dimension_texture_bindings_only
    (ty : BindingResourceTemplate) (dim : TextureViewDimension) (d : BindGroupDescriptor) :
    (BufferType.with_view_dimension ty dim).isSome = isTextureKind ty ∧
    (BufferType.new ty).view_dimension = none ∧
    (generate_bind_group_layout d = none ↔
      ∃ b ∈ d.bindings, isTextureKind b.ty = true ∧ b.view_dimension = none) := by
  refine ⟨?_, rfl, layoutEntriesFrom_none_iff d.vis d.bindings 0⟩
  cases ty <;> rfl

/-- C10 witness: attaching a dimension to a sampler fails, and generating the
layout of a descriptor whose texture view was built by `BufferType::new`
(hence dimension-less) panics. -/
theorem view_dimension_texture_bindings_only_witness :
    (BufferType.with_view_dimension (.sampler 5) .d2).isSome = isTextureKind (.sampler 5) ∧
    generate_bind_group_layout badDescriptor = none :=
  ⟨(view_dimension_texture_bindings_only (.sampler 5) .d2 badDescriptor).1,
   (view_dimension_texture_bindings_only (.sampler 5) .d2 badDescriptor).2.2.mpr
     ⟨BufferType.new (.textureView 4), by simp [badDescriptor], rfl, rfl⟩⟩

/-! ### Claim C2 — the builder output is a permutation covered exactly once -/

theorem foldl_min_choice_mem {α : Type} (cost : α → ℚ) :
    ∀ (l : List α) (a : α),
      l.foldl (fun best p => if cost p < cost best then p else best) a = a ∨
      l.foldl (fun best p => if cost p < cost best then p else best) a ∈ l := by
  intro l
  induction l with
  | nil => intro a; exact Or.inl rfl
  | cons x xs ih =>
      intro a
      simp only [List.foldl_cons]
      rcases ih (if cost x < cost a then x else a) with h | h
      · rw [h]
        by_cases hc : cost x < cost a
        · rw [if_pos hc]; exact Or.inr (List.mem_cons_self x xs)
        · rw [if_neg hc]; exact Or.inl rfl
      · exact Or.inr (List.mem_cons_of_mem x h)

/-- Every binned candidate is a partition of the active range: its two sides
together are a permutation of the input indices. -/
theorem sahCandidates_perm (tris : List Triangle) (idxs : List ℕ)
    (p : List ℕ × List ℕ) (hp : p ∈ sahCandidates tris idxs) :
    (p.1 ++ p.2).Perm idxs := by
  simp only [sahCandidates, List.mem_flatMap, List.mem_map] at hp
  obtain ⟨axis, -, thr, -, hpart⟩ := hp
  rw [List.partition_eq_filter_filter] at hpart
  rw [← hpart]
  exact List.filter_append_perm _ idxs

/-- The chosen split — best binned candidate or median fallback — is a
partition of the active range. -/
theorem sahSplit_perm (tris : List Triangle) (idxs : List ℕ) :
    ((sahSplit tris idxs).1 ++ (sahSplit tris idxs).2).Perm idxs := by
  simp only [sahSplit]
  cases hc : (sahCandidates tris idxs).filter
      (fun p => !p.1.isEmpty && !p.2.isEmpty) with
  | nil =>
      simp only [List.take_append_drop]
      exact List.Perm.refl idxs
  | cons c cs =>
      have hmem : cs.foldl
          (fun best p => if splitCost tris p < splitCost tris best then p else best) c
          ∈ sahCandidates tris idxs := by
        rcases foldl_min_choice_mem (splitCost tris) cs c with h | h
        · rw [h]
          exact List.mem_of_mem_filter (by rw [hc]; exact List.mem_cons_self c cs)
        · exact List.mem_of_mem_filter (by rw [hc]; exact List.mem_cons_of_mem c h)
      exact sahCandidates_perm tris idxs _ hmem

/-- The shared permutation array of the built tree is a permutation of the
input index list, for any partitioning split. -/
theorem buildTreeFuel_leafPrims_perm (split : List ℕ → List ℕ × List ℕ)
    (hsplit : ∀ l, ((split l).1 ++ (split l).2).Perm l) :
    ∀ (fuel : ℕ) (idxs : List ℕ),
      ((buildTreeFuel split fuel idxs).leafPrims).Perm idxs := by
  intro fuel
  induction fuel with
  | zero => intro idxs; exact List.Perm.refl _
  | succ n ih =>
      intro idxs
      simp only [buildTreeFuel]
      by_cases h1 : idxs.length ≤ primsPerLeaf
      · rw [if_pos h1]; exact List.Perm.refl _
      · rw [if_neg h1]
        by_cases h2 : (split idxs).1.length < idxs.length ∧
            (split idxs).2.length < idxs.length
        · rw [if_pos h2]
          simp only [BvhTree.leafPrims]
          exact ((ih (split idxs).1).append (ih (split idxs).2)).trans (hsplit idxs)
        · rw [if_neg h2]; exact List.Perm.refl _

theorem range1_append (s m n : ℕ) :
    List.range' s m ++ List.range' (s + m) n = List.range' s (m + n) := by
  rw [List.range'_append_1, Nat.add_comm]

theorem leafRanges_cons_internal (n1 : FlatNode) (hn : n1.isLeaf = false)
    (rest : List FlatNode) : leafRanges (n1 :: rest) = leafRanges rest := by
  simp [leafRanges, List.filter_cons, hn]

theorem leafRanges_append (l1 l2 : List FlatNode) :
    leafRanges (l1 ++ l2) = leafRanges l1 ++ leafRanges l2 := by
  simp [leafRanges, List.filter_append]

theorem rangesCover_append (r1 r2 : List (ℕ × ℕ)) :
    rangesCover (r1 ++ r2) = rangesCover r1 ++ rangesCover r2 := by
  simp [rangesCover]

/-- Flattening assigns every leaf a contiguous range; in depth-first order the
ranges tile `[primStart, primStart + leafPrims.length)` exactly. -/
theorem flattenAux_spec : ∀ (t : BvhTree) (nodeIdx primStart : ℕ),
    (flattenAux t nodeIdx primStart).2 = primStart + t.leafPrims.length ∧
    rangesCover (leafRanges (flattenAux t nodeIdx primStart).1) =
      List.range' primStart t.leafPrims.length := by
  intro t
  induction t with
  | leaf prims =>
      intro nodeIdx primStart
      refine ⟨rfl, ?_⟩
      simp [flattenAux, leafRanges, rangesCover, BvhTree.leafPrims]
  | node l r ihl ihr =>
      intro nodeIdx primStart
      obtain ⟨hl2, hlc⟩ := ihl (nodeIdx + 1) primStart
      obtain ⟨hr2, hrc⟩ :=
        ihr (nodeIdx + 1 + (flattenAux l (nodeIdx + 1) primStart).1.length)
          (flattenAux l (nodeIdx + 1) primStart).2
      constructor
      · have hstep2 : (flattenAux (BvhTree.node l r) nodeIdx primStart).2 =
            (flattenAux r (nodeIdx + 1 + (flattenAux l (nodeIdx + 1) primStart).1.length)
              (flattenAux l (nodeIdx + 1) primStart).2).2 := rfl
        rw [hstep2, hr2, hl2]
        simp only [BvhTree.leafPrims, List.length_append]
        omega
      · have hstep : (flattenAux (BvhTree.node l r) nodeIdx primStart).1 =
            (⟨false, nodeIdx + 1,
                nodeIdx + 1 + (flattenAux l (nodeIdx + 1) primStart).1.length⟩ : FlatNode) ::
            ((flattenAux l (nodeIdx + 1) primStart).1 ++
              (flattenAux r (nodeIdx + 1 + (flattenAux l (nodeIdx + 1) primStart).1.length)
                (flattenAux l (nodeIdx + 1) primStart).2).1) := rfl
        rw [hstep, leafRanges_cons_internal _ rfl, leafRanges_append, rangesCover_append, hlc,
          hl2]
        rw [hl2] at hrc
        rw [hrc]
        simp only [BvhTree.leafPrims, List.length_append]
        exact range1_append primStart _ _

/-- C2 (spec-modelled builder): for a non-empty triangle array the modelled
binned-SAH builder returns a primitive-index array whose length equals the
triangle count and which is a permutation of `[0, tris.length)`, and the leaf
ranges of the flattened node array tile `[0, tris.length)` exactly once —
pairwise disjoint, union covering every position. -/
theorem construct_binned_sah_covers (tris : List Triangle) (hne : tris ≠ []) :
    (construct_binned_sah_model tris).2.length = tris.length ∧
    ((construct_binned_sah_model tris).2).Perm (List.range tris.length) ∧
    rangesCover (leafRanges (construct_binned_sah_model tris).1) =
      List.range tris.length := by
  have hperm : ((buildTree (sahSplit tris) (List.range tris.length)).leafPrims).Perm
      (List.range tris.length) :=
    buildTreeFuel_leafPrims_perm (sahSplit tris) (sahSplit_perm tris) _ _
  have hlen : (buildTree (sahSplit tris) (List.range tris.length)).leafPrims.length
      = tris.length := by
    simpa using hperm.length_eq
  obtain ⟨-, hc⟩ := flattenAux_spec (buildTree (sahSplit tris) (List.range tris.length)) 0 0
  refine ⟨?_, ?_, ?_⟩
  · simpa [construct_binned_sah_model] using hlen
  · simpa [construct_binned_sah_model] using hperm
  · simp only [construct_binned_sah_model]
    rw [hc, hlen]
    simp [List.range_eq_range']

/-- C2 witness: the two-triangle demo scene. -/
theorem construct_binned_sah_covers_witness :
    (construct_binned_sah_model demoTris).2.length = demoTris.length ∧
    ((construct_binned_sah_model demoTris).2).Perm (List.range demoTris.length) ∧
    rangesCover (leafRanges (construct_binned_sah_model demoTris).1) =
      List.range demoTris.length :=
  construct_binned_sah_covers demoTris (by simp [demoTris])

/-- C7 witness: two frames with poses 10 then 20 after an initial reference
value 7 — both denoise submissions of frame 1 observe 7, both of frame 2
observe 10 (frame 1's pose), never the live pose. -/
theorem render_reference_camera_written_once_after_denoise_witness :
    (renderOps 42).countP QueueOp.isCamWrite = 1 ∧
    (runFrames 7 [10, 20]).seen = [7, 7, 10, 10] :=
  ⟨(render_reference_camera_written_once_after_denoise 42 7 [10, 20]).1,
   (render_reference_camera_written_once_after_denoise 42 7 [10, 20]).2.2.2.2⟩

/-- C9 amended, witness: two concrete runs differing only in the RNG draw. -/
theorem sphere_new_deterministic_except_jitter_witness :
    (Sphere.new ⟨1, 2, 3⟩ 4 5 (6, 7, 8) 0).radius =
      (Sphere.new ⟨1, 2, 3⟩ 4 5 (6, 7, 8) (1 / 2)).radius ∧
    (Sphere.new ⟨1, 2, 3⟩ 4 5 (6, 7, 8) 0).material_texture_id =
      (Sphere.new ⟨1, 2, 3⟩ 4 5 (6, 7, 8) (1 / 2)).material_texture_id ∧
    (Sphere.new ⟨1, 2, 3⟩ 4 5 (6, 7, 8) 0).center.x =
      (Sphere.new ⟨1, 2, 3⟩ 4 5 (6, 7, 8) (1 / 2)).center.x ∧
    (Sphere.new ⟨1, 2, 3⟩ 4 5 (6, 7, 8) 0).center.y =
      (Sphere.new ⟨1, 2, 3⟩ 4 5 (6, 7, 8) (1 / 2)).center.y ∧
    (Sphere.new ⟨1, 2, 3⟩ 4 5 (6, 7, 8) 0).center.z =
      (Sphere.new ⟨1, 2, 3⟩ 4 5 (6, 7, 8) (1 / 2)).center.z ∧
    (Sphere.new ⟨1, 2, 3⟩ 4 5 (6, 7, 8) 0).center.w = 0 :=
  sphere_new_deterministic_except_jitter ⟨1, 2, 3⟩ 4 5 (6, 7, 8) 0 (1 / 2)

end Raytracer
